import Mathlib

/-!
Verification of the Guardian reputation & impact-scoring engine
(gamification module and leaderboard route) against its specification.

The definitions below are shallow embeddings of the TypeScript source:
pure functions become Lean functions, the static tables become Lean
constants, JS numbers appearing in exact integer roles become `Int`/`Nat`
and fractional arithmetic becomes `ℚ` with explicit `Int.floor` /
`Math.round` modelling.
-/

/-- The five guardian ranks, ordered `observer < bronze < silver < gold < diamond`. -/
inductive GuardianRank where
  | observer
  | bronze
  | silver
  | gold
  | diamond
deriving DecidableEq, BEq, Repr

/-- Position of a rank on the ladder; the rank order is the order of these indices. -/
def rankIdx : GuardianRank → Nat
  | .observer => 0
  | .bronze => 1
  | .silver => 2
  | .gold => 3
  | .diamond => 4

/-- `RANK_REQUIREMENTS`: per-rank `{ min_verified, min_points }` thresholds. -/
def RANK_REQUIREMENTS : GuardianRank → Int × Int
  | .observer => (0, 0)
  | .bronze => (5, 50)
  | .silver => (20, 200)
  | .gold => (50, 500)
  | .diamond => (100, 1000)

/-- `calculateRank(verifiedReports, points)`: the cascade of guards from the source,
highest rank first, falling through to `observer`. -/
def calculateRank (verifiedReports points : Int) : GuardianRank :=
  if verifiedReports ≥ 100 ∧ points ≥ 1000 then .diamond
  else if verifiedReports ≥ 50 ∧ points ≥ 500 then .gold
  else if verifiedReports ≥ 20 ∧ points ≥ 200 then .silver
  else if verifiedReports ≥ 5 ∧ points ≥ 50 then .bronze
  else .observer

/-- A user meets a rank's requirements when both thresholds are satisfied (conjunctive). -/
def meetsRank (r : GuardianRank) (verifiedReports points : Int) : Prop :=
  (RANK_REQUIREMENTS r).1 ≤ verifiedReports ∧ (RANK_REQUIREMENTS r).2 ≤ points

instance (r : GuardianRank) (v p : Int) : Decidable (meetsRank r v p) := by
  unfold meetsRank; infer_instance

/-- Characterisation of `calculateRank` for non-negative inputs: a rank's thresholds
are both met exactly when the rank is at or below the resolved rank.  Hence the
resolved rank is the highest rank whose two thresholds are both met. -/
theorem meetsRank_iff_le_calculateRank (v p : Int) (hv : 0 ≤ v) (hp : 0 ≤ p)
    (r : GuardianRank) : meetsRank r v p ↔ rankIdx r ≤ rankIdx (calculateRank v p) := by
  unfold calculateRank
  cases r <;> simp only [meetsRank, RANK_REQUIREMENTS] <;>
    split_ifs <;> simp_all [rankIdx] <;> omega

example : calculateRank 5 50 = .bronze := by decide
example : calculateRank 5 49 = .observer := by decide
example : calculateRank 4 1000000 = .observer := by decide

/-- The successor of a rank on the ladder `observer, bronze, silver, gold, diamond`
(`diamond` is terminal and mapped to itself; it is never used at `diamond`). -/
def rankSucc : GuardianRank → GuardianRank
  | .observer => .bronze
  | .bronze => .silver
  | .silver => .gold
  | .gold => .diamond
  | .diamond => .diamond

/-- The ladder `ranks` array of `getRankProgress`. -/
def ranksList : List GuardianRank := [.observer, .bronze, .silver, .gold, .diamond]

/-- `getRankProgress(currentRank, verifiedReports, points)`: index the ladder, answer
`(null, 100, 100)` at the top, otherwise progress percentages toward the immediate
next rank, clamped at 100 by `Math.min`. -/
def getRankProgress (currentRank : GuardianRank) (verifiedReports points : ℚ) :
    Option GuardianRank × ℚ × ℚ :=
  let currentIndex := ranksList.indexOf currentRank
  if currentIndex = ranksList.length - 1 then
    (none, 100, 100)
  else
    let nextRank := ranksList.getD (currentIndex + 1) .observer
    let requirements := RANK_REQUIREMENTS nextRank
    (some nextRank,
      min 100 (verifiedReports / (requirements.1 : ℚ) * 100),
      min 100 (points / (requirements.2 : ℚ) * 100))


/-- C1: Rank resolution is conjunctive on both thresholds: for non-negative inputs,
`calculateRank` returns the highest rank whose `min_verified` AND `min_points` are both
met (a rank's thresholds are met exactly when it is at or below the resolved rank);
`calculateRank 5 50 = bronze`, `calculateRank 5 49 = observer`, and any user with fewer
than 5 verified reports is `observer` no matter how many points they have. -/
theorem calculateRank_conjunctive (v p : Int) (hv : 0 ≤ v) (hp : 0 ≤ p) :
    (∀ r, meetsRank r v p ↔ rankIdx r ≤ rankIdx (calculateRank v p)) ∧
    calculateRank 5 50 = .bronze ∧
    calculateRank 5 49 = .observer ∧
    (v < 5 → calculateRank v p = .observer) := by
  refine ⟨meetsRank_iff_le_calculateRank v p hv hp, by decide, by decide, ?_⟩
  intro hlt
  unfold calculateRank
  split_ifs <;> first | rfl | omega

/-- Witness for C1 at `(v, p) = (5, 49)`. -/
theorem calculateRank_conjunctive_witness :
    (∀ r, meetsRank r 5 49 ↔ rankIdx r ≤ rankIdx (calculateRank 5 49)) ∧
    calculateRank 5 50 = .bronze ∧
    calculateRank 5 49 = .observer ∧
    ((5 : Int) < 5 → calculateRank 5 49 = .observer) :=
  calculateRank_conjunctive 5 49 (by decide) (by decide)

/-- C8: Rank resolution is monotone in both dimensions: increasing verified reports
and points never decreases the resolved rank (in the order given by `rankIdx`). -/
theorem calculateRank_monotone (v₁ p₁ v₂ p₂ : Int) (hv : 0 ≤ v₁) (hp : 0 ≤ p₁)
    (hv₂ : v₁ ≤ v₂) (hp₂ : p₁ ≤ p₂) :
    rankIdx (calculateRank v₁ p₁) ≤ rankIdx (calculateRank v₂ p₂) := by
  unfold calculateRank
  split_ifs <;> simp only [rankIdx] <;> omega

/-- Witness for C8 at `(0, 0) ≤ (100, 1000)`. -/
theorem calculateRank_monotone_witness :
    rankIdx (calculateRank 0 0) ≤ rankIdx (calculateRank 100 1000) :=
  calculateRank_monotone 0 0 100 1000 (by decide) (by decide) (by decide) (by decide)

/-- C10: Below `diamond`, `getRankProgress` always reports the immediate successor of
the rank passed in as `nextRank` — never a higher rank — and both progress values are
clamped to at most 100; in particular `getRankProgress observer 100 1000` is
`(some bronze, 100, 100)` even though those stats satisfy several higher ranks. -/
theorem getRankProgress_immediate_successor (r : GuardianRank) (v p : ℚ)
    (h : r ≠ .diamond) :
    ((getRankProgress r v p).1 = some (rankSucc r) ∧
      (getRankProgress r v p).2.1 ≤ 100 ∧ (getRankProgress r v p).2.2 ≤ 100) ∧
    getRankProgress .observer 100 1000 = (some .bronze, 100, 100) := by
  constructor
  · cases r
    · exact ⟨rfl, min_le_left _ _, min_le_left _ _⟩
    · exact ⟨rfl, min_le_left _ _, min_le_left _ _⟩
    · exact ⟨rfl, min_le_left _ _, min_le_left _ _⟩
    · exact ⟨rfl, min_le_left _ _, min_le_left _ _⟩
    · exact absurd rfl h
  · show (some GuardianRank.bronze, min 100 ((100 : ℚ) / 5 * 100),
      min 100 ((1000 : ℚ) / 50 * 100)) = (some .bronze, 100, 100)
    norm_num

/-- Witness for C10 at `(observer, 100, 1000)`. -/
theorem getRankProgress_immediate_successor_witness :
    ((getRankProgress .observer 100 1000).1 = some (rankSucc .observer) ∧
      (getRankProgress .observer 100 1000).2.1 ≤ 100 ∧
      (getRankProgress .observer 100 1000).2.2 ≤ 100) ∧
    getRankProgress .observer 100 1000 = (some .bronze, 100, 100) :=
  getRankProgress_immediate_successor .observer 100 1000 (by decide)

/-- `ACTIVITY_POINTS`: the record mapping each activity type key to its point value,
embedded as the association list of the record's nine entries in source order. -/
def ACTIVITY_POINTS : List (String × Nat) :=
  [("report_submitted", 5),
   ("report_verified", 15),
   ("report_rejected", 0),
   ("enforcement_triggered", 50),
   ("badge_earned", 0),
   ("rank_promoted", 25),
   ("comment_added", 2),
   ("evidence_uploaded", 5),
   ("alert_subscription", 3)]

/-- Property access `ACTIVITY_POINTS[t]`: `some` of the table value for a present key,
`none` (JS `undefined` / a missing table entry) for any other key. -/
def activityPoints (t : String) : Option Nat :=
  ACTIVITY_POINTS.lookup t

/-- C3: the activity-point lookup returns exactly the literal table values for the nine
activity types, and for any key that is not one of the nine it produces no value
(`none`, a fail-fast absence) rather than zero. -/
theorem activityPoints_table (t : String)
    (h : t ∉ (ACTIVITY_POINTS.map Prod.fst)) :
    activityPoints "report_submitted" = some 5 ∧
    activityPoints "report_verified" = some 15 ∧
    activityPoints "report_rejected" = some 0 ∧
    activityPoints "enforcement_triggered" = some 50 ∧
    activityPoints "badge_earned" = some 0 ∧
    activityPoints "rank_promoted" = some 25 ∧
    activityPoints "comment_added" = some 2 ∧
    activityPoints "evidence_uploaded" = some 5 ∧
    activityPoints "alert_subscription" = some 3 ∧
    activityPoints t = none := by
  simp only [ACTIVITY_POINTS, List.map, List.mem_cons, List.not_mem_nil, or_false] at h
  push_neg at h
  obtain ⟨h1, h2, h3, h4, h5, h6, h7, h8, h9⟩ := h
  refine ⟨rfl, rfl, rfl, rfl, rfl, rfl, rfl, rfl, rfl, ?_⟩
  simp [activityPoints, ACTIVITY_POINTS, List.lookup,
    beq_eq_false_iff_ne.mpr h1, beq_eq_false_iff_ne.mpr h2, beq_eq_false_iff_ne.mpr h3,
    beq_eq_false_iff_ne.mpr h4, beq_eq_false_iff_ne.mpr h5, beq_eq_false_iff_ne.mpr h6,
    beq_eq_false_iff_ne.mpr h7, beq_eq_false_iff_ne.mpr h8, beq_eq_false_iff_ne.mpr h9]

/-- Witness for C3 at the unknown key `"unknown_type"`. -/
theorem activityPoints_table_witness :
    activityPoints "report_submitted" = some 5 ∧
    activityPoints "report_verified" = some 15 ∧
    activityPoints "report_rejected" = some 0 ∧
    activityPoints "enforcement_triggered" = some 50 ∧
    activityPoints "badge_earned" = some 0 ∧
    activityPoints "rank_promoted" = some 25 ∧
    activityPoints "comment_added" = some 2 ∧
    activityPoints "evidence_uploaded" = some 5 ∧
    activityPoints "alert_subscription" = some 3 ∧
    activityPoints "unknown_type" = none :=
  activityPoints_table "unknown_type" (by decide)

/-- Inputs of `calculateEnvironmentalImpact` (JS numbers, embedded as rationals). -/
structure ImpactStats where
  verified_reports : ℚ
  enforcement_actions : ℚ
  sites_closed : ℚ
deriving DecidableEq, Repr

/-- JS `Math.round`: round half toward positive infinity. -/
def jsRound (q : ℚ) : Int := ⌊q + 1 / 2⌋

/-- `calculateEnvironmentalImpact(stats)`: hectares at 0.5 / 2 / 10 per unit, rounded
to 1 decimal via `Math.round(h * 10) / 10`; water bodies as
`Math.floor(verified_reports * 0.1) + sites_closed * 1`. -/
def calculateEnvironmentalImpact (stats : ImpactStats) : ℚ × ℚ :=
  let hectares_protected : ℚ :=
    stats.verified_reports * (5 / 10) +
    stats.enforcement_actions * 2 +
    stats.sites_closed * 10
  let water_bodies_saved : ℚ :=
    (⌊stats.verified_reports * (1 / 10)⌋ : ℚ) +
    stats.sites_closed * 1
  ((jsRound (hectares_protected * 10) : ℚ) / 10, water_bodies_saved)

/-- C4: on non-negative integer inputs the impact formula is exact: rounding to one
decimal is the identity (the hectare total is always a multiple of 0.1), so the result
is `(v*0.5 + e*2 + s*10, ⌊v*0.1⌋ + s)`; at `(10, 2, 1)` this is `(19.0, 2)`. -/
theorem calculateEnvironmentalImpact_formula (v e s : ℕ) :
    calculateEnvironmentalImpact ⟨(v : ℚ), (e : ℚ), (s : ℚ)⟩ =
      ((v : ℚ) * (5 / 10) + (e : ℚ) * 2 + (s : ℚ) * 10, ((v / 10 : ℕ) : ℚ) + (s : ℚ)) ∧
    calculateEnvironmentalImpact ⟨10, 2, 1⟩ = (19, 2) := by
  constructor
  · unfold calculateEnvironmentalImpact jsRound
    refine Prod.ext ?_ ?_
    · show ((⌊((v : ℚ) * (5 / 10) + (e : ℚ) * 2 + (s : ℚ) * 10) * 10 + 1 / 2⌋ : ℚ) / 10) = _
      have h10 : ((v : ℚ) * (5 / 10) + (e : ℚ) * 2 + (s : ℚ) * 10) * 10 =
          ((5 * v + 20 * e + 100 * s : ℤ) : ℚ) := by push_cast; ring
      rw [h10, Int.floor_int_add, show ⌊(1 / 2 : ℚ)⌋ = 0 from by norm_num, add_zero]
      push_cast
      ring
    · show (⌊(v : ℚ) * (1 / 10)⌋ : ℚ) + (s : ℚ) * 1 = _
      have hfl : ⌊(v : ℚ) * (1 / 10)⌋ = ((v / 10 : ℕ) : ℤ) := by
        rw [mul_one_div,
          show ((v : ℚ) / 10) = (((v : ℤ) : ℚ) / ((10 : ℕ) : ℚ)) from by push_cast; ring,
          Rat.floor_intCast_div_natCast]
        omega
      rw [hfl, mul_one, Int.cast_natCast]
  · show ((jsRound (((10 : ℚ) * (5 / 10) + 2 * 2 + 1 * 10) * 10) : ℚ) / 10,
      ((⌊(10 : ℚ) * (1 / 10)⌋ : ℚ) + 1 * 1)) = (19, 2)
    norm_num [jsRound]

/-- A badge catalog entry. -/
structure Badge where
  id : String
  name : String
  description : String
  icon : String
  points : Nat
deriving DecidableEq, Repr

def BADGES_first_report : Badge :=
  ⟨"first_report", "First Report", "Submitted your first incident report", "flag", 10⟩

def BADGES_verified_5 : Badge :=
  ⟨"verified_5", "Trusted Reporter", "5 reports verified by moderators", "check-circle", 50⟩

def BADGES_verified_20 : Badge :=
  ⟨"verified_20", "Community Guardian", "20 reports verified", "shield", 100⟩

def BADGES_verified_50 : Badge :=
  ⟨"verified_50", "Environmental Champion", "50 verified reports", "award", 250⟩

def BADGES_enforcement_1 : Badge :=
  ⟨"enforcement_1", "Justice Seeker", "Report led to enforcement action", "gavel", 100⟩

def BADGES_enforcement_5 : Badge :=
  ⟨"enforcement_5", "Law Enforcer", "5 reports led to enforcement", "shield-check", 500⟩

def BADGES_water_guardian : Badge :=
  ⟨"water_guardian", "Water Guardian", "Reported 10 water pollution incidents", "droplet", 75⟩

def BADGES_forest_protector : Badge :=
  ⟨"forest_protector", "Forest Protector", "Reported 10 deforestation incidents", "tree-pine", 75⟩

def BADGES_early_bird : Badge :=
  ⟨"early_bird", "Early Bird", "Submitted report within 24h of activity", "clock", 25⟩

def BADGES_photo_evidence : Badge :=
  ⟨"photo_evidence", "Photo Journalist", "Uploaded 50 pieces of evidence", "camera", 50⟩

def BADGES_voice_reporter : Badge :=
  ⟨"voice_reporter", "Voice Reporter", "Used voice input for 10 reports", "mic", 30⟩

def BADGES_regional_expert : Badge :=
  ⟨"regional_expert", "Regional Expert", "Top reporter in your region for a month", "map-pin", 100⟩

def BADGES_streak_7 : Badge :=
  ⟨"streak_7", "Dedicated Watcher", "Reported incidents 7 days in a row", "flame", 50⟩

def BADGES_streak_30 : Badge :=
  ⟨"streak_30", "Vigilant Guardian", "Active for 30 consecutive days", "flame", 150⟩

/-- The `BADGES` record, as its association list of the 14 entries in source order. -/
def BADGES : List (String × Badge) :=
  [("first_report", BADGES_first_report),
   ("verified_5", BADGES_verified_5),
   ("verified_20", BADGES_verified_20),
   ("verified_50", BADGES_verified_50),
   ("enforcement_1", BADGES_enforcement_1),
   ("enforcement_5", BADGES_enforcement_5),
   ("water_guardian", BADGES_water_guardian),
   ("forest_protector", BADGES_forest_protector),
   ("early_bird", BADGES_early_bird),
   ("photo_evidence", BADGES_photo_evidence),
   ("voice_reporter", BADGES_voice_reporter),
   ("regional_expert", BADGES_regional_expert),
   ("streak_7", BADGES_streak_7),
   ("streak_30", BADGES_streak_30)]

/-- The stats argument of `checkEarnedBadges`, with the `existing_badges`
(already-earned badge id) list as its last field, as in the source. -/
structure BadgeStats where
  reports_submitted : Nat
  reports_verified : Nat
  enforcement_actions : Nat
  water_reports : Nat
  deforestation_reports : Nat
  evidence_count : Nat
  voice_reports : Nat
  activity_streak : Nat
  is_regional_top : Bool
  existing_badges : List String
deriving DecidableEq, Repr

/-- `checkEarnedBadges(stats)`: the source's thirteen guarded pushes in order; each
badge is appended when its threshold is met and its id is not already present in
`stats.existing_badges`. -/
def checkEarnedBadges (stats : BadgeStats) : List Badge :=
  (if decide (stats.reports_submitted ≥ 1) &&
      !(stats.existing_badges.contains "first_report") then [BADGES_first_report] else []) ++
  (if decide (stats.reports_verified ≥ 5) &&
      !(stats.existing_badges.contains "verified_5") then [BADGES_verified_5] else []) ++
  (if decide (stats.reports_verified ≥ 20) &&
      !(stats.existing_badges.contains "verified_20") then [BADGES_verified_20] else []) ++
  (if decide (stats.reports_verified ≥ 50) &&
      !(stats.existing_badges.contains "verified_50") then [BADGES_verified_50] else []) ++
  (if decide (stats.enforcement_actions ≥ 1) &&
      !(stats.existing_badges.contains "enforcement_1") then [BADGES_enforcement_1] else []) ++
  (if decide (stats.enforcement_actions ≥ 5) &&
      !(stats.existing_badges.contains "enforcement_5") then [BADGES_enforcement_5] else []) ++
  (if decide (stats.water_reports ≥ 10) &&
      !(stats.existing_badges.contains "water_guardian") then [BADGES_water_guardian] else []) ++
  (if decide (stats.deforestation_reports ≥ 10) &&
      !(stats.existing_badges.contains "forest_protector") then [BADGES_forest_protector] else []) ++
  (if decide (stats.evidence_count ≥ 50) &&
      !(stats.existing_badges.contains "photo_evidence") then [BADGES_photo_evidence] else []) ++
  (if decide (stats.voice_reports ≥ 10) &&
      !(stats.existing_badges.contains "voice_reporter") then [BADGES_voice_reporter] else []) ++
  (if decide (stats.activity_streak ≥ 7) &&
      !(stats.existing_badges.contains "streak_7") then [BADGES_streak_7] else []) ++
  (if decide (stats.activity_streak ≥ 30) &&
      !(stats.existing_badges.contains "streak_30") then [BADGES_streak_30] else []) ++
  (if stats.is_regional_top &&
      !(stats.existing_badges.contains "regional_expert") then [BADGES_regional_expert] else [])

/-- Run a list of `(badge, unlock predicate)` checks against stats, keeping each badge
whose predicate holds and whose id is not in `existing_badges` — the uniform loop view
of `checkEarnedBadges`. -/
def runChecks (L : List (Badge × (BadgeStats → Bool))) (stats : BadgeStats) : List Badge :=
  match L with
  | [] => []
  | (b, pred) :: rest =>
    (if pred stats && !(stats.existing_badges.contains b.id) then [b] else []) ++
      runChecks rest stats

/-- The thirteen `(badge, unlock predicate)` pairs of `checkEarnedBadges`, in source
order.  `early_bird` has no check in the source and so does not appear here. -/
def badgeChecks : List (Badge × (BadgeStats → Bool)) :=
  [(BADGES_first_report, fun s => decide (s.reports_submitted ≥ 1)),
   (BADGES_verified_5, fun s => decide (s.reports_verified ≥ 5)),
   (BADGES_verified_20, fun s => decide (s.reports_verified ≥ 20)),
   (BADGES_verified_50, fun s => decide (s.reports_verified ≥ 50)),
   (BADGES_enforcement_1, fun s => decide (s.enforcement_actions ≥ 1)),
   (BADGES_enforcement_5, fun s => decide (s.enforcement_actions ≥ 5)),
   (BADGES_water_guardian, fun s => decide (s.water_reports ≥ 10)),
   (BADGES_forest_protector, fun s => decide (s.deforestation_reports ≥ 10)),
   (BADGES_photo_evidence, fun s => decide (s.evidence_count ≥ 50)),
   (BADGES_voice_reporter, fun s => decide (s.voice_reports ≥ 10)),
   (BADGES_streak_7, fun s => decide (s.activity_streak ≥ 7)),
   (BADGES_streak_30, fun s => decide (s.activity_streak ≥ 30)),
   (BADGES_regional_expert, fun s => s.is_regional_top)]

theorem checkEarnedBadges_eq_runChecks (stats : BadgeStats) :
    checkEarnedBadges stats = runChecks badgeChecks stats := by
  simp only [checkEarnedBadges, runChecks, badgeChecks, List.append_nil,
    List.append_assoc, BADGES_first_report, BADGES_verified_5, BADGES_verified_20,
    BADGES_verified_50, BADGES_enforcement_1, BADGES_enforcement_5, BADGES_water_guardian,
    BADGES_forest_protector, BADGES_photo_evidence, BADGES_voice_reporter,
    BADGES_streak_7, BADGES_streak_30, BADGES_regional_expert]

/-- If every badge id produced by a run over `stats` is already in the (larger)
existing set of `stats'`, and the two stats agree on every predicate, the run over
`stats'` produces nothing. -/
theorem runChecks_eq_nil_of_covered (L : List (Badge × (BadgeStats → Bool)))
    (stats stats' : BadgeStats)
    (hpred : ∀ c ∈ L, c.2 stats' = c.2 stats)
    (hsub : ∀ x ∈ stats.existing_badges, x ∈ stats'.existing_badges)
    (hrun : ∀ b ∈ runChecks L stats, b.id ∈ stats'.existing_badges) :
    runChecks L stats' = [] := by
  induction L with
  | nil => rfl
  | cons c rest ih =>
    obtain ⟨b, pred⟩ := c
    have hpredhead : pred stats' = pred stats := hpred _ (List.mem_cons_self _ _)
    simp only [runChecks] at hrun ⊢
    rw [hpredhead]
    have htail : runChecks rest stats' = [] := by
      refine ih (fun c hc => hpred c (List.mem_cons_of_mem _ hc)) ?_
      intro b' hb'
      exact hrun b' (List.mem_append_right _ hb')
    rw [htail]
    by_cases hp : pred stats = true
    · by_cases hmem : b.id ∈ stats.existing_badges
      · have hcontains' : stats'.existing_badges.contains b.id = true :=
          List.elem_eq_true_of_mem (hsub _ hmem)
        simp [hp, hcontains']
        exact hsub _ hmem
      · have hcontains : stats.existing_badges.contains b.id = false := by
          simpa using hmem
        have hbmem : b ∈ (if pred stats && !(stats.existing_badges.contains b.id)
            then [b] else []) ++ runChecks rest stats := by
          rw [hp, hcontains]
          exact List.mem_cons_self _ _
        have hcontains' : stats'.existing_badges.contains b.id = true :=
          List.elem_eq_true_of_mem (hrun b hbmem)
        simp [hp, hcontains']
        exact hrun b hbmem
    · have hpf : pred stats = false := by
        revert hp
        cases pred stats <;> simp
      simp [hpf]

/-- C2: Badge award is idempotent: adding the ids of the badges just returned by
`checkEarnedBadges` to the already-earned set makes a second evaluation on the same
stats return the empty list — a badge whose id is in the already-earned set is never
returned again. -/
theorem checkEarnedBadges_idempotent (stats : BadgeStats) :
    checkEarnedBadges
      { stats with existing_badges :=
          stats.existing_badges ++ (checkEarnedBadges stats).map Badge.id } = [] := by
  rw [checkEarnedBadges_eq_runChecks]
  refine runChecks_eq_nil_of_covered badgeChecks stats _ ?_ ?_ ?_
  · intro c hc
    fin_cases hc <;> rfl
  · intro x hx
    exact List.mem_append_left _ hx
  · intro b hb
    refine List.mem_append_right _ ?_
    rw [checkEarnedBadges_eq_runChecks]
    exact List.mem_map_of_mem _ hb

example :
    checkEarnedBadges ⟨1, 5, 0, 0, 0, 0, 0, 0, false, []⟩ =
      [BADGES_first_report, BADGES_verified_5] := by decide

example :
    checkEarnedBadges ⟨1, 5, 0, 0, 0, 0, 0, 0, false, ["verified_5"]⟩ =
      [BADGES_first_report] := by decide

/-- Every badge produced by a run is the badge of one of the checks. -/
theorem mem_checks_of_mem_runChecks (L : List (Badge × (BadgeStats → Bool)))
    (stats : BadgeStats) (b : Badge) (hb : b ∈ runChecks L stats) :
    b ∈ L.map Prod.fst := by
  induction L with
  | nil => cases hb
  | cons c rest ih =>
    obtain ⟨b', pred⟩ := c
    simp only [runChecks] at hb
    rcases List.mem_append.mp hb with h | h
    · have hb' : b = b' := by
        split at h
        · simpa using h
        · cases h
      rw [hb']
      exact List.mem_cons_self _ _
    · exact List.mem_cons_of_mem _ (ih h)

/-- C7 counterexample: `early_bird` is one of the 14 catalog entries, yet no stats
snapshot whatsoever makes `checkEarnedBadges` return it — the evaluator has no check
for it — so not every catalog badge is awardable. -/
theorem earlyBird_never_awarded :
    ("early_bird", BADGES_early_bird) ∈ BADGES ∧
    ¬ ∃ stats : BadgeStats, BADGES_early_bird ∈ checkEarnedBadges stats := by
  constructor
  · decide
  · rintro ⟨stats, hmem⟩
    rw [checkEarnedBadges_eq_runChecks] at hmem
    have h2 := mem_checks_of_mem_runChecks badgeChecks stats _ hmem
    revert h2
    decide

/-- The all-triggering snapshot: every numeric stat maxed out, regional top, no
already-earned badges. -/
def megaStats : BadgeStats := ⟨1000, 1000, 1000, 1000, 1000, 1000, 1000, 1000, true, []⟩

/-- C7 amended: the catalog has 14 entries, every one of the 14 (including
`early_bird`) has a point value between 10 and 500, and every catalog badge except
`early_bird` is awardable: `checkEarnedBadges` returns it on the all-triggering
snapshot with an empty already-earned set (`early_bird` has no check in the evaluator
and is never returned). -/
theorem badge_catalog_awardable (b : String × Badge) (hb : b ∈ BADGES) :
    BADGES.length = 14 ∧ (10 ≤ b.2.points ∧ b.2.points ≤ 500) ∧
    (b.2.id ≠ "early_bird" → b.2 ∈ checkEarnedBadges megaStats) := by
  fin_cases hb <;> refine ⟨by decide, by decide, fun hnot => ?_⟩ <;>
    first | exact absurd rfl hnot | decide

/-- Witness for C7's amended claim at the `first_report` catalog entry. -/
theorem badge_catalog_awardable_witness :
    BADGES.length = 14 ∧
    (10 ≤ BADGES_first_report.points ∧ BADGES_first_report.points ≤ 500) ∧
    (BADGES_first_report.id ≠ "early_bird" →
      BADGES_first_report ∈ checkEarnedBadges megaStats) :=
  badge_catalog_awardable ("first_report", BADGES_first_report) (by decide)

/-- C9 counterexample: negative inputs are not rejected — there is no validation or
error path — both functions compute ordinary results from them:
`calculateRank (-1) 5000` is the rank `observer` and
`calculateEnvironmentalImpact (-1, -2, -3)` is the value `(-34.5, -4)`. -/
theorem negative_inputs_not_rejected :
    calculateRank (-1) 5000 = .observer ∧
    calculateEnvironmentalImpact ⟨-1, -2, -3⟩ = (-69 / 2, -4) := by
  constructor
  · decide
  · show ((jsRound (((-1 : ℚ) * (5 / 10) + (-2 : ℚ) * 2 + (-3 : ℚ) * 10) * 10) : ℚ) / 10,
      ((⌊(-1 : ℚ) * (1 / 10)⌋ : ℚ) + (-3 : ℚ) * 1)) = (-69 / 2, -4)
    have h1 : (((-1 : ℚ) * (5 / 10) + (-2 : ℚ) * 2 + (-3 : ℚ) * 10) * 10) =
        ((-345 : ℤ) : ℚ) := by norm_num
    have h2 : jsRound ((-345 : ℤ) : ℚ) = -345 := by
      unfold jsRound
      rw [Int.floor_int_add, show ⌊(1 / 2 : ℚ)⌋ = 0 from by norm_num, add_zero]
    have h3 : ⌊(-1 : ℚ) * (1 / 10)⌋ = -1 := by
      rw [show ((-1 : ℚ) * (1 / 10)) = (((-1 : ℤ) : ℚ) / ((10 : ℕ) : ℚ)) from by norm_num,
        Rat.floor_intCast_div_natCast]
      rfl
    rw [h1, h2, h3]
    norm_num

/-- C9 amended: no boundary validation exists; the functions are total and simply
compute on negative inputs: any negative verified-report count or point total makes
`calculateRank` fall through to `observer`, and `calculateEnvironmentalImpact` applies
its linear formula to arbitrary (also negative) integer inputs, yielding possibly
negative impact values. -/
theorem negative_inputs_flow_through (v p : Int) (h : v < 0 ∨ p < 0) :
    calculateRank v p = .observer ∧
    ∀ a e s : Int, calculateEnvironmentalImpact ⟨(a : ℚ), (e : ℚ), (s : ℚ)⟩ =
      (((5 * a + 20 * e + 100 * s : Int) : ℚ) / 10, ((a / 10 + s : Int) : ℚ)) := by
  constructor
  · unfold calculateRank
    split_ifs <;> first | rfl | omega
  · intro a e s
    unfold calculateEnvironmentalImpact jsRound
    refine Prod.ext ?_ ?_
    · show ((⌊((a : ℚ) * (5 / 10) + (e : ℚ) * 2 + (s : ℚ) * 10) * 10 + 1 / 2⌋ : ℚ) / 10) = _
      have h10 : ((a : ℚ) * (5 / 10) + (e : ℚ) * 2 + (s : ℚ) * 10) * 10 =
          ((5 * a + 20 * e + 100 * s : ℤ) : ℚ) := by push_cast; ring
      rw [h10, Int.floor_int_add, show ⌊(1 / 2 : ℚ)⌋ = 0 from by norm_num, add_zero]
    · show (⌊(a : ℚ) * (1 / 10)⌋ : ℚ) + (s : ℚ) * 1 = _
      have hfl : ⌊(a : ℚ) * (1 / 10)⌋ = a / 10 := by
        rw [mul_one_div,
          show ((a : ℚ) / 10) = (((a : ℤ) : ℚ) / ((10 : ℕ) : ℚ)) from by push_cast; ring,
          Rat.floor_intCast_div_natCast]
        rfl
      rw [hfl]
      push_cast
      ring

/-- Witness for C9's amended claim at `(v, p) = (-1, 5000)`. -/
theorem negative_inputs_flow_through_witness :
    calculateRank (-1) 5000 = .observer ∧
    ∀ a e s : Int, calculateEnvironmentalImpact ⟨(a : ℚ), (e : ℚ), (s : ℚ)⟩ =
      (((5 * a + 20 * e + 100 * s : Int) : ℚ) / 10, ((a / 10 + s : Int) : ℚ)) :=
  negative_inputs_flow_through (-1) 5000 (Or.inl (by decide))

/-- A row of the leaderboard query result, with the fields the ranking logic uses. -/
structure LBRow where
  user_id : Nat
  score : Int
deriving DecidableEq, Repr

/-- The ordering constraint the route's query imposes on the database:
`ORDER BY score DESC` with no secondary key.  An output the database may return for
the given rows is any permutation of them that is sorted by descending score; SQL
imposes no order among rows with equal scores. -/
def queryResult (rows output : List LBRow) : Prop :=
  output.Perm rows ∧ output.Sorted (fun a b => b.score ≤ a.score)

instance (rows output : List LBRow) : Decidable (queryResult rows output) := by
  unfold queryResult List.Sorted
  infer_instance

/-- The rank-numbering step of the route: entry `rank` is `index + 1` in result
order. -/
def addRanks (entries : List LBRow) : List (Nat × LBRow) :=
  entries.enum.map (fun ia => (ia.1 + 1, ia.2))

/-- Rank numbers are dense and 1-based: position `i` gets rank `i + 1`. -/
theorem addRanks_ranks (entries : List LBRow) :
    (addRanks entries).map Prod.fst = (List.range entries.length).map (· + 1) := by
  calc (addRanks entries).map Prod.fst
      = ((List.range entries.length).zip entries).map ((· + 1) ∘ Prod.fst) := by
        rw [addRanks, List.enum_eq_zip_range, List.map_map]; rfl
    _ = (((List.range entries.length).zip entries).map Prod.fst).map (· + 1) := by
        rw [List.map_map]
    _ = (List.range entries.length).map (· + 1) := by
        rw [List.map_fst_zip _ _ (by simp)]

/-- A two-element permutation is one of the two arrangements. -/
theorem perm_pair_eq {α : Type _} {x y p q : α} (h : [x, y].Perm [p, q]) :
    (x = p ∧ y = q) ∨ (x = q ∧ y = p) := by
  have hx : x ∈ [p, q] := h.subset (List.mem_cons_self _ _)
  rcases List.mem_cons.mp hx with rfl | hx'
  · refine Or.inl ⟨rfl, ?_⟩
    have hy : y ∈ [q] := h.cons_inv.subset (List.mem_cons_self _ _)
    simpa using hy
  · have hxq : x = q := by simpa using hx'
    subst hxq
    refine Or.inr ⟨rfl, ?_⟩
    have h2 : ([x, y] : List α).Perm [x, p] := h.trans (List.Perm.swap _ _ _)
    have hy : y ∈ [p] := h2.cons_inv.subset (List.mem_cons_self _ _)
    simpa using hy

/-- A three-element permutation is one of the six arrangements. -/
theorem perm_triple_eq {α : Type _} {x y z a b c : α} (h : [x, y, z].Perm [a, b, c]) :
    (x = a ∧ ((y = b ∧ z = c) ∨ (y = c ∧ z = b))) ∨
    (x = b ∧ ((y = a ∧ z = c) ∨ (y = c ∧ z = a))) ∨
    (x = c ∧ ((y = a ∧ z = b) ∨ (y = b ∧ z = a))) := by
  have hx : x ∈ [a, b, c] := h.subset (List.mem_cons_self _ _)
  rcases List.mem_cons.mp hx with rfl | hx'
  · exact Or.inl ⟨rfl, perm_pair_eq h.cons_inv⟩
  rcases List.mem_cons.mp hx' with rfl | hx''
  · refine Or.inr (Or.inl ⟨rfl, ?_⟩)
    have h2 : ([x, y, z] : List α).Perm [x, a, c] := h.trans (List.Perm.swap _ _ _)
    exact perm_pair_eq h2.cons_inv
  · have hxc : x = c := by simpa using hx''
    subst hxc
    refine Or.inr (Or.inr ⟨rfl, ?_⟩)
    have hperm : ([a, b, x] : List α).Perm [x, a, b] :=
      (List.Perm.cons a (List.Perm.swap x b [])).trans (List.Perm.swap x a [b])
    exact perm_pair_eq (h.trans hperm).cons_inv

/-- The three entries of the tie-break scenario: u1 and u2 tie at score 100,
u3 trails at 50. -/
def u1 : LBRow := ⟨1, 100⟩

def u2 : LBRow := ⟨2, 100⟩

def u3 : LBRow := ⟨3, 50⟩

def scenarioRows : List LBRow := [u1, u2, u3]

/-- C5 counterexample: the query's ordering constraint admits two different outputs for
the same unchanged collection — `[u1, u2, u3]` and `[u2, u1, u3]` are both valid
`ORDER BY score DESC` results — and on the second the route assigns rank 1 to u2 ahead
of u1, so the ranking is neither deterministic nor tie-broken by ascending userId. -/
theorem leaderboard_tie_break_not_deterministic :
    queryResult scenarioRows [u1, u2, u3] ∧
    queryResult scenarioRows [u2, u1, u3] ∧
    addRanks [u2, u1, u3] = [(1, u2), (2, u1), (3, u3)] ∧
    ([u2, u1, u3] : List LBRow) ≠ [u1, u2, u3] := by
  refine ⟨by decide, by decide, rfl, by decide⟩

/-- C5 amended: ranks are always dense, 1-based and positional in result order, and in
the scenario every result the query constraint allows keeps u3 last with rank 3, with
ranks 1 and 2 going to the tied u1 and u2 in an order the code does not determine
(either `[u1, u2, u3]` or `[u2, u1, u3]`); the ascending-userId tie-break and re-run
determinism of the claim are not guaranteed by the code. -/
theorem leaderboard_rank_positional (out : List LBRow)
    (h : queryResult scenarioRows out) :
    ((addRanks out).map Prod.fst = (List.range out.length).map (· + 1)) ∧
    (addRanks out = [(1, u1), (2, u2), (3, u3)] ∨
      addRanks out = [(1, u2), (2, u1), (3, u3)]) := by
  refine ⟨addRanks_ranks out, ?_⟩
  obtain ⟨hperm, hsorted⟩ := h
  simp only [scenarioRows] at hperm
  have hlen := hperm.length_eq
  rcases out with _ | ⟨x, _ | ⟨y, _ | ⟨z, _ | ⟨w, t⟩⟩⟩⟩ <;> simp at hlen
  rcases perm_triple_eq hperm with ⟨rfl, ⟨rfl, rfl⟩ | ⟨rfl, rfl⟩⟩ |
    ⟨rfl, ⟨rfl, rfl⟩ | ⟨rfl, rfl⟩⟩ | ⟨rfl, ⟨rfl, rfl⟩ | ⟨rfl, rfl⟩⟩ <;>
    first
      | exact Or.inl rfl
      | exact Or.inr rfl
      | (exfalso; simp [List.sorted_cons, u1, u2, u3] at hsorted)

/-- Witness for C5's amended claim at the output `[u1, u2, u3]`. -/
theorem leaderboard_rank_positional_witness :
    ((addRanks [u1, u2, u3]).map Prod.fst =
      (List.range ([u1, u2, u3] : List LBRow).length).map (· + 1)) ∧
    (addRanks [u1, u2, u3] = [(1, u1), (2, u2), (3, u3)] ∨
      addRanks [u1, u2, u3] = [(1, u2), (2, u1), (3, u3)]) :=
  leaderboard_rank_positional [u1, u2, u3] (by decide)

/-- A `users` row as read by the all-time leaderboard query (counters non-null). -/
structure UserRow where
  id : Nat
  reports_submitted : Int
  reports_verified : Int
  enforcement_actions : Int
  guardian_points : Int
  show_on_leaderboard : Bool
deriving DecidableEq, Repr

/-- The leaderboard `category` query parameter. -/
inductive LBCategory where
  | reports
  | verified
  | enforcement
  | points
deriving DecidableEq, Repr

/-- The `orderBy` / score column selected by the route's category switch. -/
def categoryColumn : LBCategory → UserRow → Int
  | .reports, u => u.reports_submitted
  | .verified, u => u.reports_verified
  | .enforcement, u => u.enforcement_actions
  | .points, u => u.guardian_points

/-- The all-time branch `WHERE` clause:
`show_on_leaderboard = 1 AND (orderBy > 0 OR guardian_points > 0)`
(region filtering is orthogonal to scores and omitted). -/
def allTimeEligible (category : LBCategory) (u : UserRow) : Bool :=
  u.show_on_leaderboard &&
    (decide (categoryColumn category u > 0) || decide (u.guardian_points > 0))

/-- The rows the all-time query returns (before ordering). -/
def allTimeRows (category : LBCategory) (rows : List UserRow) : List UserRow :=
  rows.filter (allTimeEligible category)

/-- The weekly/monthly branch keeps a per-user aggregated `(user, score)` row only
under `HAVING score > 0`. -/
def havingPositive (rows : List (Nat × Int)) : List (Nat × Int) :=
  rows.filter (fun r => decide (r.2 > 0))

/-- A user with zero submitted reports but positive guardian points, opted in. -/
def zeroReportsUser : UserRow := ⟨7, 0, 0, 0, 5, true⟩

/-- C6 counterexample: in the all-time `reports` leaderboard the opted-in user with
zero submitted reports and 5 guardian points passes the `WHERE` filter
(`reports_submitted > 0 OR guardian_points > 0`) and is returned as a row whose score
in the selected category is 0 — zero-score entries are not always excluded. -/
theorem leaderboard_zero_score_included :
    allTimeRows .reports [zeroReportsUser] = [zeroReportsUser] ∧
    categoryColumn .reports zeroReportsUser = 0 := by
  exact ⟨rfl, rfl⟩

/-- C6 amended: the weekly/monthly branch keeps only rows with strictly positive score
(`HAVING score > 0`), and the all-time branch keeps a row exactly when its category
column or its guardian points are positive — so for `category = points` only positive
scores survive, but for the other categories a user with a zero category score and
positive guardian points is included as a zero-score row. -/
theorem leaderboard_zero_exclusion_partial (rows : List (Nat × Int)) (r : Nat × Int)
    (hr : r ∈ havingPositive rows) (cat : LBCategory) (urows : List UserRow)
    (u : UserRow) (hu : u ∈ allTimeRows cat urows) :
    0 < r.2 ∧
    (0 < categoryColumn cat u ∨ 0 < u.guardian_points) ∧
    (cat = .points → 0 < categoryColumn cat u) := by
  have hr2 := (List.mem_filter.mp hr).2
  have hu2 := (List.mem_filter.mp hu).2
  simp only [allTimeEligible, Bool.and_eq_true, Bool.or_eq_true, decide_eq_true_eq] at hu2
  refine ⟨of_decide_eq_true hr2, hu2.2, ?_⟩
  rintro rfl
  rcases hu2.2 with h | h
  · exact h
  · exact h

/-- Witness for C6's amended claim: the row `(1, 3)` survives `HAVING score > 0` and
`zeroReportsUser` passes the all-time points filter. -/
theorem leaderboard_zero_exclusion_partial_witness :
    0 < ((1, 3) : Nat × Int).2 ∧
    (0 < categoryColumn .points zeroReportsUser ∨ 0 < zeroReportsUser.guardian_points) ∧
    (LBCategory.points = .points → 0 < categoryColumn .points zeroReportsUser) :=
  leaderboard_zero_exclusion_partial [(1, 3)] (1, 3) (by decide) .points
    [zeroReportsUser] zeroReportsUser (by decide)
